import Mathlib

/-!
Verification of the health-reporting subsystem in
`src/builder/backend/routes/health.py`.

The module is embedded shallowly: each dependency call that can raise an
exception in Python is modelled as an `Except String` outcome carried in a
`DepEnv` record (the error payload is the string `str(e)` the code would
attach to the failing check), and each route handler becomes a pure function
from a `DepEnv` (plus explicit clock values where the code reads
`time.time()`) to a response record and an HTTP status code.  Python floats
are modelled as rationals; `round(x, 2)` is modelled as round-half-to-even on
hundredths, matching the tie-breaking of Python's float `round`.
-/

deriving instance DecidableEq for Except

namespace Health

/-- The in-process TFrameX application object: the keys of its `_agents` and
`_tools` dictionaries, as used by `check_tframex` and the detailed report. -/
structure TframexApp where
  agents : List String
  tools : List String
deriving DecidableEq, Repr

/-- Outcomes of every fallible dependency call made by the module, plus the
environment variables it reads.  An `Except.error e` value means the
corresponding Python call raises an exception whose `str(e)` is `e`. -/
structure DepEnv where
  /-- Outcome of `engine.connect()` + `SELECT 1` round trip. -/
  dbConn : Except String Unit
  /-- Outcome of building the redis client from env vars and calling `ping()`. -/
  redisCall : Except String Unit
  /-- Outcome of `get_tframex_app_instance()`. -/
  tframexInstance : Except String TframexApp
  /-- Outcome of the three `SELECT COUNT(*)` metrics queries
  (projects, flows, users) run in one `try` block. -/
  metricsQuery : Except String (Nat × Nat × Nat)
  /-- `os.getenv("FLASK_ENV")`. -/
  flaskEnv : Option String
  /-- `os.getenv("DATABASE_URL")`. -/
  databaseUrl : Option String
  /-- `os.getenv("REDIS_HOST")`. -/
  redisHost : Option String
deriving DecidableEq, Repr

/-- `check_database_connection`: runs `SELECT 1` inside `try`, returns
`(True, "Connected")` on success and `(False, str(e))` on any exception. -/
def check_database_connection (env : DepEnv) : Bool × String :=
  match env.dbConn with
  | Except.ok _ => (true, "Connected")
  | Except.error e => (false, e)

/-- `check_redis_connection`: builds a redis client from env configuration and
pings it inside `try`, returning `(True, "Connected")` or `(False, str(e))`. -/
def check_redis_connection (env : DepEnv) : Bool × String :=
  match env.redisCall with
  | Except.ok _ => (true, "Connected")
  | Except.error e => (false, e)

/-- `check_tframex`: introspects the in-process registry inside `try`,
returning the agent and tool counts on success and `(False, str(e))` on any
exception. -/
def check_tframex (env : DepEnv) : Bool × String :=
  match env.tframexInstance with
  | Except.ok app =>
      (true, toString app.agents.length ++ " agents, " ++
        toString app.tools.length ++ " tools registered")
  | Except.error e => (false, e)

/-- The aggregator pattern of the `checks` dict comprehension: every
registered probe contributes exactly one `(ok, message)` entry, a probe whose
underlying call faults contributing `(false, str(e))` through its own
`try`/`except` boundary, a succeeding probe `(true, success message)`. -/
def run_all (registry : List (String × Except String String)) :
    List (String × (Bool × String)) :=
  registry.map fun p =>
    (p.1,
      match p.2 with
      | Except.ok m => (true, m)
      | Except.error e => (false, e))

/-- One entry of the readiness `checks` mapping. -/
structure CheckEntry where
  status : String
  message : String
deriving DecidableEq, Repr

/-- Body of the `/health/ready` response. -/
structure ReadinessResponse where
  status : String
  checks : List (String × CheckEntry)
deriving DecidableEq, Repr

/-- The `readiness` handler: runs the three checks, computes
`all_healthy`, and renders the response with status code 200 or 503. -/
def readiness (env : DepEnv) : ReadinessResponse × Nat :=
  let checks : List (String × (Bool × String)) :=
    [("database", check_database_connection env),
     ("redis", check_redis_connection env),
     ("tframex", check_tframex env)]
  let all_healthy := checks.all fun p => p.2.1
  let status_code : Nat := if all_healthy then 200 else 503
  ({ status := if all_healthy then "ready" else "not_ready",
     checks := checks.map fun p =>
       (p.1, { status := if p.2.1 then "pass" else "fail", message := p.2.2 }) },
   status_code)

/-- Body of the `/health/live` response (timestamp omitted from the model). -/
structure LivenessResponse where
  status : String
deriving DecidableEq, Repr

/-- The `liveness` handler: returns `{"status": "alive"}` with code 200.  It
takes the dependency environment only to state that it ignores it: the
handler body touches no probe and no dependency. -/
def liveness (_env : DepEnv) : LivenessResponse × Nat :=
  ({ status := "alive" }, 200)

/-- Round-half-to-even to an integer, the tie-breaking rule of Python's
`round` on floats. -/
def roundHalfEven (x : ℚ) : ℤ :=
  if x - Int.floor x < 1 / 2 then Int.floor x
  else if 1 / 2 < x - Int.floor x then Int.floor x + 1
  else if Int.floor x % 2 = 0 then Int.floor x else Int.floor x + 1

/-- `round(x, 2)`: round to hundredths, ties to even. -/
def pyRound2 (x : ℚ) : ℚ := (roundHalfEven (x * 100) : ℚ) / 100

/-- Python floor division `a // b` on floats (the result fed to `int(...)`). -/
def pyFloorDiv (a b : ℚ) : ℤ := Int.floor (a / b)

/-- Python `a % b` on floats: `a - b * (a // b)`, nonnegative for `b > 0`. -/
def pyMod (a b : ℚ) : ℚ := a - b * (pyFloorDiv a b : ℚ)

/-- The `health` handler (`GET /health`): status string, `uptime_seconds =
round(time.time() - START_TIME, 2)` and status code.  `start` is the
`START_TIME` module constant captured once at import, `now` the current
`time.time()` reading. -/
def health (start now : ℚ) : String × ℚ × Nat :=
  ("healthy", pyRound2 (now - start), 200)

/-- The f-string `f"{int(uptime // 3600)}h {int((uptime % 3600) // 60)}m
{int(uptime % 60)}s"` of the detailed report (for nonnegative uptime,
`int` truncation coincides with the floor used here). -/
def human_readable (u : ℚ) : String :=
  toString (pyFloorDiv u 3600) ++ "h " ++
  toString (pyFloorDiv (pyMod u 3600) 60) ++ "m " ++
  toString (Int.floor (pyMod u 60)) ++ "s"

/-- Decides whether `needle` is an initial segment of `hay`. -/
def strStarts : List Char → List Char → Bool
  | _, [] => true
  | [], _ :: _ => false
  | a :: as, b :: bs => a == b && strStarts as bs

/-- Decides Python's contiguous-substring test `needle in hay`. -/
def strOccurs (needle : List Char) : List Char → Bool
  | [] => strStarts [] needle
  | a :: as => strStarts (a :: as) needle || strOccurs needle as

/-- The environment block's storage-backend heuristic:
`"postgresql" if "postgresql" in os.getenv("DATABASE_URL", "") else
"sqlite"`. -/
def database_url_descriptor (url : Option String) : String :=
  if strOccurs "postgresql".toList (url.getD "").toList then "postgresql"
  else "sqlite"

/-- One entry of the detailed `components` mapping.  The redis entry carries
no metrics or details key in the Python dict; that absence and an explicit
`None` are both modelled as `none`. -/
structure ComponentEntry where
  status : String
  message : String
  metrics : Option (Nat × Nat × Nat)
  details : Option (List String × List String × List String)
deriving DecidableEq, Repr

/-- Body of the `/health/detailed` response (timestamp and the constant
version/service/company strings omitted from the model). -/
structure DetailedResponse where
  status : String
  uptimeSeconds : ℚ
  uptimeHuman : String
  components : List (String × ComponentEntry)
  envFlask : String
  envDatabaseUrl : String
  envRedisHost : String
deriving DecidableEq, Repr

/-- The `detailed_health` handler: runs the three checks, the metrics
queries and the details introspection (each in its own `try`), and renders
the full report with status code 200 or 503 from the three check outcomes. -/
def detailed_health (start now : ℚ) (env : DepEnv) : DetailedResponse × Nat :=
  let uptime := now - start
  let dbr := check_database_connection env
  let rdr := check_redis_connection env
  let tfr := check_tframex env
  let db_metrics : Option (Nat × Nat × Nat) :=
    match env.metricsQuery with
    | Except.ok m => some m
    | Except.error _ => none
  let tframex_details : Option (List String × List String × List String) :=
    match env.tframexInstance with
    | Except.ok app =>
        some (app.agents, app.tools,
          ["sequential", "parallel", "router", "discussion"])
    | Except.error _ => none
  let ok := dbr.1 && rdr.1 && tfr.1
  ({ status := if ok then "healthy" else "degraded",
     uptimeSeconds := pyRound2 uptime,
     uptimeHuman := human_readable uptime,
     components :=
       [("database",
          { status := if dbr.1 then "healthy" else "unhealthy",
            message := dbr.2, metrics := db_metrics, details := none }),
        ("redis",
          { status := if rdr.1 then "healthy" else "unhealthy",
            message := rdr.2, metrics := none, details := none }),
        ("tframex",
          { status := if tfr.1 then "healthy" else "unhealthy",
            message := tfr.2, metrics := none, details := tframex_details })],
     envFlask := env.flaskEnv.getD "production",
     envDatabaseUrl := database_url_descriptor env.databaseUrl,
     envRedisHost := env.redisHost.getD "localhost" },
   if ok then 200 else 503)

/-- The `socket_connect_timeout` argument the redis probe passes when
building its client: 2 seconds. -/
def redis_socket_connect_timeout : Option ℚ := some 2

/-- The timeout configured by the database probe on its `engine.connect()` /
`SELECT 1` round trip: the call passes no timeout argument at all. -/
def database_probe_timeout : Option ℚ := none

/-- The timeout configured by the registry probe: its in-process
introspection passes no timeout argument. -/
def tframex_probe_timeout : Option ℚ := none

/-- The per-probe timeout configuration of the module, keyed like the
`checks` dict. -/
def probe_timeouts : List (String × Option ℚ) :=
  [("database", database_probe_timeout),
   ("redis", redis_socket_connect_timeout),
   ("tframex", tframex_probe_timeout)]

/-- Concrete environment in which every dependency call succeeds. -/
def envAllOk : DepEnv :=
  { dbConn := Except.ok (),
    redisCall := Except.ok (),
    tframexInstance := Except.ok { agents := ["a1"], tools := ["t1"] },
    metricsQuery := Except.ok (1, 2, 3),
    flaskEnv := none,
    databaseUrl := none,
    redisHost := none }

/-- Concrete environment in which only the database round trip faults. -/
def envDbDown : DepEnv :=
  { envAllOk with dbConn := Except.error "connection refused" }

/-- Concrete two-probe registry used to exercise the aggregator. -/
def regW : List (String × Except String String) :=
  [("database", Except.error "down"), ("redis", Except.ok "Connected")]

/-! ## Helper lemmas -/

theorem roundHalfEven_le (x : ℚ) : roundHalfEven x ≤ Int.floor x + 1 := by
  unfold roundHalfEven
  split_ifs <;> omega

theorem le_roundHalfEven (x : ℚ) : Int.floor x ≤ roundHalfEven x := by
  unfold roundHalfEven
  split_ifs <;> omega

theorem roundHalfEven_mono {x y : ℚ} (h : x ≤ y) :
    roundHalfEven x ≤ roundHalfEven y := by
  rcases lt_or_le (Int.floor x) (Int.floor y) with hf | hf
  · calc roundHalfEven x ≤ Int.floor x + 1 := roundHalfEven_le x
      _ ≤ Int.floor y := by omega
      _ ≤ roundHalfEven y := le_roundHalfEven y
  · have hfe : Int.floor x = Int.floor y :=
      le_antisymm (Int.floor_le_floor h) hf
    unfold roundHalfEven
    rw [hfe]
    split_ifs <;> first | omega | linarith

theorem pyRound2_mono {x y : ℚ} (h : x ≤ y) : pyRound2 x ≤ pyRound2 y := by
  unfold pyRound2
  have h100 : x * 100 ≤ y * 100 := by linarith
  have hint := roundHalfEven_mono h100
  have hc : ((roundHalfEven (x * 100) : ℚ)) ≤ (roundHalfEven (y * 100) : ℚ) := by
    exact_mod_cast hint
  linarith

theorem pyMod_nonneg (a : ℚ) {b : ℚ} (hb : 0 < b) : 0 ≤ pyMod a b := by
  unfold pyMod pyFloorDiv
  have h1 : (Int.floor (a / b) : ℚ) ≤ a / b := Int.floor_le _
  have h2 : b * (Int.floor (a / b) : ℚ) ≤ b * (a / b) :=
    mul_le_mul_of_nonneg_left h1 hb.le
  have h3 : b * (a / b) = a := by field_simp
  linarith

theorem pyMod_lt (a : ℚ) {b : ℚ} (hb : 0 < b) : pyMod a b < b := by
  unfold pyMod pyFloorDiv
  have h1 : a / b < (Int.floor (a / b) : ℚ) + 1 := Int.lt_floor_add_one _
  have h2 : b * (a / b) < b * ((Int.floor (a / b) : ℚ) + 1) :=
    mul_lt_mul_of_pos_left h1 hb
  have h3 : b * (a / b) = a := by field_simp
  rw [mul_add, mul_one] at h2
  linarith

theorem floor_pyMod_sixty (u : ℚ) :
    Int.floor (pyMod u 60) = Int.floor u - 60 * Int.floor (u / 60) := by
  have h : pyMod u 60 = u - ((60 * Int.floor (u / 60) : ℤ) : ℚ) := by
    unfold pyMod pyFloorDiv
    push_cast
    ring
  rw [h, Int.floor_sub_int]

theorem floor_pyMod_hour (u : ℚ) :
    Int.floor (pyMod u 3600 / 60) =
      Int.floor (u / 60) - 60 * Int.floor (u / 3600) := by
  have h : pyMod u 3600 / 60 = u / 60 - ((60 * Int.floor (u / 3600) : ℤ) : ℚ) := by
    unfold pyMod pyFloorDiv
    push_cast
    ring
  rw [h, Int.floor_sub_int]

theorem strStarts_iff (needle : List Char) : ∀ hay,
    strStarts hay needle = true ↔ ∃ rest, hay = needle ++ rest := by
  induction needle with
  | nil =>
    intro hay
    simp [strStarts]
  | cons b bs ih =>
    intro hay
    cases hay with
    | nil => simp [strStarts]
    | cons a as =>
      have hdef : strStarts (a :: as) (b :: bs) = (a == b && strStarts as bs) := rfl
      rw [hdef, Bool.and_eq_true, beq_iff_eq, ih as]
      constructor
      · rintro ⟨rfl, rest, rfl⟩
        exact ⟨rest, rfl⟩
      · rintro ⟨rest, heq⟩
        injection heq with h1 h2
        exact ⟨h1, rest, h2⟩

theorem strOccurs_iff (needle hay : List Char) :
    strOccurs needle hay = true ↔ ∃ p q, hay = p ++ (needle ++ q) := by
  induction hay with
  | nil =>
    rw [show strOccurs needle [] = strStarts [] needle from rfl, strStarts_iff]
    constructor
    · rintro ⟨rest, h⟩
      exact ⟨[], rest, h⟩
    · rintro ⟨p, q, h⟩
      obtain ⟨hp, hnq⟩ := List.append_eq_nil.mp h.symm
      obtain ⟨hn, hq⟩ := List.append_eq_nil.mp hnq
      exact ⟨[], by simp [hn]⟩
  | cons a as ih =>
    rw [show strOccurs needle (a :: as) =
          (strStarts (a :: as) needle || strOccurs needle as) from rfl]
    rw [Bool.or_eq_true, strStarts_iff, ih]
    constructor
    · rintro (⟨rest, h⟩ | ⟨p, q, h⟩)
      · exact ⟨[], rest, h⟩
      · exact ⟨a :: p, q, by rw [h]; rfl⟩
    · rintro ⟨p, q, h⟩
      cases p with
      | nil => exact Or.inl ⟨q, by simpa using h⟩
      | cons x xs =>
        injection h with h1 h2
        exact Or.inr ⟨xs, q, h2⟩

/-! ## Claim theorems -/

/-- C1: the readiness verdict is the conjunction of the three probe
outcomes — status "ready" with HTTP 200 iff every check's ok is true, and
"not_ready" with 503 iff at least one is false; the detailed verdict is
"healthy" with 200 iff all checks pass and "degraded" with 503 otherwise. -/
theorem readiness_detailed_verdict (env : DepEnv) (start now : ℚ) :
    (((readiness env).1.status = "ready" ∧ (readiness env).2 = 200) ↔
      ((check_database_connection env).1 = true ∧
       (check_redis_connection env).1 = true ∧
       (check_tframex env).1 = true)) ∧
    (((readiness env).1.status = "not_ready" ∧ (readiness env).2 = 503) ↔
      ¬((check_database_connection env).1 = true ∧
        (check_redis_connection env).1 = true ∧
        (check_tframex env).1 = true)) ∧
    (((detailed_health start now env).1.status = "healthy" ∧
        (detailed_health start now env).2 = 200) ↔
      ((check_database_connection env).1 = true ∧
       (check_redis_connection env).1 = true ∧
       (check_tframex env).1 = true)) ∧
    (((detailed_health start now env).1.status = "degraded" ∧
        (detailed_health start now env).2 = 503) ↔
      ¬((check_database_connection env).1 = true ∧
        (check_redis_connection env).1 = true ∧
        (check_tframex env).1 = true)) := by
  rcases hdb : env.dbConn with u1 | e1 <;>
    rcases hrd : env.redisCall with u2 | e2 <;>
      rcases htf : env.tframexInstance with a3 | e3 <;>
        simp [readiness, detailed_health, check_database_connection,
          check_redis_connection, check_tframex, hdb, hrd, htf]

/-- C2: one aggregator run over any registered list of probes yields exactly
one result per probe — same length, same key at every index — with ok false
at an index precisely when that probe's underlying outcome is a fault, and
ok true otherwise. -/
theorem run_all_one_entry_per_probe (registry : List (String × Except String String)) :
    (run_all registry).length = registry.length ∧
    ∀ i (h1 : i < registry.length) (h2 : i < (run_all registry).length),
      ((run_all registry).get ⟨i, h2⟩).1 = (registry.get ⟨i, h1⟩).1 ∧
      (((run_all registry).get ⟨i, h2⟩).2.1 = false ↔
        ∃ e, (registry.get ⟨i, h1⟩).2 = Except.error e) := by
  refine ⟨by simp [run_all], ?_⟩
  intro i h1 h2
  simp only [run_all, List.get_eq_getElem, List.getElem_map]
  rcases hout : (registry.get ⟨i, h1⟩).2 with m | e <;>
    simp [List.get_eq_getElem] at hout <;>
      simp [hout]

/-- Closed instance of `run_all_one_entry_per_probe` on a concrete two-probe
registry whose first probe faults. -/
theorem run_all_one_entry_per_probe_witness :
    (run_all regW).length = regW.length ∧
    ((run_all regW).get ⟨0, by decide⟩).1 = (regW.get ⟨0, by decide⟩).1 ∧
    ((run_all regW).get ⟨0, by decide⟩).2.1 = false :=
  ⟨(run_all_one_entry_per_probe regW).1,
   ((run_all_one_entry_per_probe regW).2 0 (by decide) (by decide)).1,
   ((run_all_one_entry_per_probe regW).2 0 (by decide) (by decide)).2.mpr
     ⟨"down", by decide⟩⟩

/-- C3: each of the three probes is total at its boundary — a faulting
dependency call yields `(false, str(e))` rather than a propagated fault, and
a successful call yields `(true, message)`. -/
theorem probe_boundary_total (env : DepEnv) :
    (env.dbConn = Except.ok () →
      check_database_connection env = (true, "Connected")) ∧
    (∀ e, env.dbConn = Except.error e →
      check_database_connection env = (false, e)) ∧
    (env.redisCall = Except.ok () →
      check_redis_connection env = (true, "Connected")) ∧
    (∀ e, env.redisCall = Except.error e →
      check_redis_connection env = (false, e)) ∧
    (∀ app, env.tframexInstance = Except.ok app →
      check_tframex env = (true, toString app.agents.length ++ " agents, " ++
        toString app.tools.length ++ " tools registered")) ∧
    (∀ e, env.tframexInstance = Except.error e →
      check_tframex env = (false, e)) := by
  refine ⟨?_, ?_, ?_, ?_, ?_, ?_⟩
  · intro h
    simp [check_database_connection, h]
  · intro e h
    simp [check_database_connection, h]
  · intro h
    simp [check_redis_connection, h]
  · intro e h
    simp [check_redis_connection, h]
  · intro app h
    simp [check_tframex, h]
  · intro e h
    simp [check_tframex, h]

/-- Closed instance of `probe_boundary_total` in the environment where the
database call faults with "connection refused" and the others succeed. -/
theorem probe_boundary_total_witness :
    check_database_connection envDbDown = (false, "connection refused") ∧
    check_redis_connection envDbDown = (true, "Connected") ∧
    check_tframex envDbDown = (true, "1 agents, 1 tools registered") :=
  ⟨(probe_boundary_total envDbDown).2.1 "connection refused" rfl,
   (probe_boundary_total envDbDown).2.2.1 rfl,
   (probe_boundary_total envDbDown).2.2.2.2.1
     { agents := ["a1"], tools := ["t1"] } rfl⟩

/-- C6: the liveness handler returns HTTP 200 with status "alive" in every
dependency state, and its result is independent of that state — it invokes
no probe. -/
theorem liveness_constant (env : DepEnv) :
    (liveness env).1.status = "alive" ∧ (liveness env).2 = 200 ∧
    ∀ env2 : DepEnv, liveness env = liveness env2 :=
  ⟨rfl, rfl, fun _ => rfl⟩

/-- C4 as stated is false: even with every probe passing, the readiness
checks mapping carries the key "tframex", not "registry". -/
theorem component_keys_cex :
    ¬ ((readiness envAllOk).1.checks.map Prod.fst =
        ["database", "redis", "registry"]) := by
  decide

/-- C4 amended: the readiness checks mapping and the detailed components
mapping carry entries under exactly the keys database, redis and tframex
(not "registry"), each entry holding a status — "pass"/"fail" for
readiness, "healthy"/"unhealthy" for detailed — and a message. -/
theorem component_keys (env : DepEnv) :
    (readiness env).1.checks.map Prod.fst = ["database", "redis", "tframex"] ∧
    (∀ p, p ∈ (readiness env).1.checks →
      p.2.status = "pass" ∨ p.2.status = "fail") ∧
    ∀ start now : ℚ,
      (detailed_health start now env).1.components.map Prod.fst =
        ["database", "redis", "tframex"] ∧
      ∀ p, p ∈ (detailed_health start now env).1.components →
        p.2.status = "healthy" ∨ p.2.status = "unhealthy" := by
  refine ⟨by simp [readiness], ?_, ?_⟩
  · intro p hp
    simp [readiness] at hp
    rcases hp with rfl | rfl | rfl
    · cases h : (check_database_connection env).1 <;> simp [h]
    · cases h : (check_redis_connection env).1 <;> simp [h]
    · cases h : (check_tframex env).1 <;> simp [h]
  · intro start now
    refine ⟨by simp [detailed_health], ?_⟩
    intro p hp
    simp [detailed_health] at hp
    rcases hp with rfl | rfl | rfl
    · cases h : (check_database_connection env).1 <;> simp [h]
    · cases h : (check_redis_connection env).1 <;> simp [h]
    · cases h : (check_tframex env).1 <;> simp [h]

/-- Closed instance of `component_keys` at the all-passing environment,
exercising the membership hypothesis on the database entry. -/
theorem component_keys_witness :
    (readiness envAllOk).1.checks.map Prod.fst =
      ["database", "redis", "tframex"] ∧
    ("pass" = "pass" ∨ "pass" = "fail") :=
  ⟨(component_keys envAllOk).1,
   (component_keys envAllOk).2.1
     ("database", { status := "pass", message := "Connected" }) (by decide)⟩

/-- C5: a fault in the metrics queries leaves the database component's
metrics field absent instead of propagating, and the detailed status code is
a function of the three probe outcomes alone — it is unchanged across any
two metrics outcomes, faulting or successful. -/
theorem metrics_failure_isolated (start now : ℚ) (env : DepEnv) :
    (∀ e, ((detailed_health start now
        { env with metricsQuery := Except.error e }).1.components.lookup
          "database").map ComponentEntry.metrics = some none) ∧
    (∀ q1 q2, (detailed_health start now { env with metricsQuery := q1 }).2 =
        (detailed_health start now { env with metricsQuery := q2 }).2) ∧
    (∀ q1 q2,
      (detailed_health start now { env with metricsQuery := q1 }).1.status =
        (detailed_health start now { env with metricsQuery := q2 }).1.status) := by
  refine ⟨?_, ?_, ?_⟩
  · intro e
    simp [detailed_health, List.lookup]
  · intro q1 q2
    simp [detailed_health, check_database_connection, check_redis_connection,
      check_tframex]
  · intro q1 q2
    simp [detailed_health, check_database_connection, check_redis_connection,
      check_tframex]

/-- C7: with the start timestamp `START_TIME` captured once and never
mutated, the reported `uptime_seconds` is monotonically non-decreasing
across sequential calls: a later (or equal) clock reading never yields a
smaller rounded uptime. -/
theorem uptime_seconds_monotone (start t1 t2 : ℚ) (h : t1 ≤ t2) :
    (health start t1).2.1 ≤ (health start t2).2.1 := by
  have hd : t1 - start ≤ t2 - start := by linarith
  simpa [health] using pyRound2_mono hd

/-- Closed instance of `uptime_seconds_monotone` at start 0 and clock
readings 1 and 2. -/
theorem uptime_seconds_monotone_witness :
    (health 0 1).2.1 ≤ (health 0 2).2.1 :=
  uptime_seconds_monotone 0 1 2 (by norm_num)

/-- C8: for nonnegative uptime `u`, the human-readable string is
`"<H>h <M>m <S>s"` with `H = ⌊u / 3600⌋`, `M = ⌊(u mod 3600) / 60⌋` and
`S = ⌊u mod 60⌋`; moreover `0 ≤ M < 60`, `0 ≤ S < 60`, and `u` decomposes
as `3600 H + 60 M + S` plus a fraction below one second. -/
theorem human_readable_spec (u : ℚ) (_h : 0 ≤ u) :
    human_readable u =
      toString (Int.floor (u / 3600)) ++ "h " ++
      toString (Int.floor (pyMod u 3600 / 60)) ++ "m " ++
      toString (Int.floor (pyMod u 60)) ++ "s" ∧
    0 ≤ Int.floor (pyMod u 3600 / 60) ∧ Int.floor (pyMod u 3600 / 60) < 60 ∧
    0 ≤ Int.floor (pyMod u 60) ∧ Int.floor (pyMod u 60) < 60 ∧
    ((3600 * Int.floor (u / 3600) + 60 * Int.floor (pyMod u 3600 / 60) +
        Int.floor (pyMod u 60) : ℤ) : ℚ) ≤ u ∧
    u < ((3600 * Int.floor (u / 3600) + 60 * Int.floor (pyMod u 3600 / 60) +
        Int.floor (pyMod u 60) : ℤ) : ℚ) + 1 := by
  have hm3600 : 0 ≤ pyMod u 3600 := pyMod_nonneg u (by norm_num)
  have hm3600lt : pyMod u 3600 < 3600 := pyMod_lt u (by norm_num)
  have hm60 : 0 ≤ pyMod u 60 := pyMod_nonneg u (by norm_num)
  have hm60lt : pyMod u 60 < 60 := pyMod_lt u (by norm_num)
  have hM0 : 0 ≤ Int.floor (pyMod u 3600 / 60) :=
    Int.le_floor.mpr (by positivity)
  have hMlt : Int.floor (pyMod u 3600 / 60) < 60 :=
    Int.floor_lt.mpr (by rw [div_lt_iff₀ (by norm_num : (0:ℚ) < 60)]; norm_num; linarith)
  have hS0 : 0 ≤ Int.floor (pyMod u 60) := Int.le_floor.mpr (by exact_mod_cast hm60)
  have hSlt : Int.floor (pyMod u 60) < 60 :=
    Int.floor_lt.mpr (by exact_mod_cast hm60lt)
  have hdecomp : 3600 * Int.floor (u / 3600) + 60 * Int.floor (pyMod u 3600 / 60) +
      Int.floor (pyMod u 60) = Int.floor u := by
    rw [floor_pyMod_hour, floor_pyMod_sixty]
    ring
  refine ⟨rfl, hM0, hMlt, hS0, hSlt, ?_, ?_⟩
  · rw [hdecomp]
    exact Int.floor_le u
  · rw [hdecomp]
    exact Int.lt_floor_add_one u

/-- Closed instance of `human_readable_spec` at 3725 seconds (1h 2m 5s). -/
theorem human_readable_spec_witness :
    human_readable 3725 =
      toString (Int.floor ((3725 : ℚ) / 3600)) ++ "h " ++
      toString (Int.floor (pyMod 3725 3600 / 60)) ++ "m " ++
      toString (Int.floor (pyMod 3725 60)) ++ "s" :=
  (human_readable_spec 3725 (by norm_num)).1

/-- C9 as stated is false on the code: not every probe configures its own
timeout — the database probe's connect/query round trip passes no timeout
argument at all. -/
theorem probe_timeout_cex :
    ¬ ((probe_timeouts.all fun p => p.2.isSome) = true) := by
  decide

/-- C9 amended: only the redis probe applies an explicit bounded timeout —
its client is built with a 2-second socket connect timeout (within the
recommended 2–3 second bound) — while the database probe's dependency call
and the in-process registry introspection pass no timeout of their own. -/
theorem probe_timeout_config :
    probe_timeouts.lookup "redis" = some redis_socket_connect_timeout ∧
    (∃ t, redis_socket_connect_timeout = some t ∧ 0 < t ∧ t ≤ 3) ∧
    probe_timeouts.lookup "database" = some none ∧
    probe_timeouts.lookup "tframex" = some none := by
  refine ⟨by decide, ⟨2, rfl, by norm_num, by norm_num⟩, by decide, by decide⟩

/-- C10: the detailed environment block labels the storage backend
"postgresql" exactly when the string "postgresql" occurs as a contiguous
substring of the DATABASE_URL value, and "sqlite" in every other case,
including when the variable is unset. -/
theorem database_url_descriptor_spec (url : Option String) :
    (database_url_descriptor url = "postgresql" ↔
      ∃ p q, (url.getD "").toList = p ++ ("postgresql".toList ++ q)) ∧
    (database_url_descriptor url = "sqlite" ↔
      ¬ ∃ p q, (url.getD "").toList = p ++ ("postgresql".toList ++ q)) ∧
    database_url_descriptor none = "sqlite" := by
  have hiff := strOccurs_iff "postgresql".toList (url.getD "").toList
  have hd : database_url_descriptor url =
      if strOccurs "postgresql".toList (url.getD "").toList then "postgresql"
      else "sqlite" := rfl
  cases hoc : strOccurs "postgresql".toList (url.getD "").toList with
  | false =>
    rw [hoc] at hiff hd
    have hd2 : database_url_descriptor url = "sqlite" := by rw [hd]; rfl
    have hnot : ¬ ∃ p q, (url.getD "").toList = p ++ ("postgresql".toList ++ q) :=
      fun hex => Bool.false_ne_true (hiff.mpr hex)
    refine ⟨⟨?_, ?_⟩, ⟨fun _ => hnot, fun _ => hd2⟩, rfl⟩
    · intro hcontra
      rw [hd2] at hcontra
      exact absurd hcontra (by decide)
    · intro hex
      exact absurd hex hnot
  | true =>
    rw [hoc] at hiff hd
    have hd2 : database_url_descriptor url = "postgresql" := by rw [hd]; rfl
    have hex : ∃ p q, (url.getD "").toList = p ++ ("postgresql".toList ++ q) :=
      hiff.mp rfl
    refine ⟨⟨fun _ => hex, fun _ => hd2⟩, ⟨?_, fun hnot => absurd hex hnot⟩, rfl⟩
    intro hcontra
    rw [hd2] at hcontra
    exact absurd hcontra (by decide)

end Health
